import Mathlib

/-!
Verification of the Business-Code-Package core: the response envelope
model (`src/response/api-response.ts`), the business-code range
predicates (`src/constants/business-codes.ts`), the localization
resolver (`src/i18n/message-provider.ts`) and the pagination
query-parsing helper (`src/nextjs/helpers.ts`).

Conventions of the shallow embedding:
* TypeScript `number` is modelled as `Int` (every value the claims
  range over is an integer); JavaScript `NaN` arising from
  `parseInt` is modelled as `Option.none`.
* An optional TypeScript field `x?: T` is modelled as `Option T`;
  `undefined` is `none`.  A `Record`/`Map` is an association list
  with first-match lookup (`List.lookup`).
* JavaScript truthiness on strings (`if (s) ...`) treats the empty
  string as falsy; `jsHit` captures this.
-/

namespace HttpStatus

/-- `HttpStatus.OK` (`src/constants/http-status.ts`). -/
def OK : Int := 200

/-- `HttpStatus.CREATED`. -/
def CREATED : Int := 201

/-- `HttpStatus.NO_CONTENT`. -/
def NO_CONTENT : Int := 204

/-- `HttpStatus.BAD_REQUEST`. -/
def BAD_REQUEST : Int := 400

/-- `HttpStatus.UNAUTHORIZED`. -/
def UNAUTHORIZED : Int := 401

/-- `HttpStatus.FORBIDDEN`. -/
def FORBIDDEN : Int := 403

/-- `HttpStatus.NOT_FOUND`. -/
def NOT_FOUND : Int := 404

/-- `HttpStatus.CONFLICT`. -/
def CONFLICT : Int := 409

/-- `HttpStatus.UNPROCESSABLE_ENTITY`. -/
def UNPROCESSABLE_ENTITY : Int := 422

/-- `HttpStatus.TOO_MANY_REQUESTS`. -/
def TOO_MANY_REQUESTS : Int := 429

/-- `HttpStatus.INTERNAL_SERVER_ERROR`. -/
def INTERNAL_SERVER_ERROR : Int := 500

end HttpStatus

namespace BusinessCode

/-- `BusinessCode.AUTH_FAILED` (`src/constants/business-codes.ts`). -/
def AUTH_FAILED : Int := 1001

/-- `BusinessCode.PERMISSION_DENIED`. -/
def PERMISSION_DENIED : Int := 1007

/-- `BusinessCode.VALIDATION_ERROR`. -/
def VALIDATION_ERROR : Int := 3001

/-- `BusinessCode.INVALID_INPUT`. -/
def INVALID_INPUT : Int := 3002

/-- `BusinessCode.RESOURCE_NOT_FOUND`. -/
def RESOURCE_NOT_FOUND : Int := 4001

/-- `BusinessCode.RESOURCE_CONFLICT`. -/
def RESOURCE_CONFLICT : Int := 4008

/-- `BusinessCode.INTERNAL_ERROR`. -/
def INTERNAL_ERROR : Int := 5001

/-- `BusinessCode.RATE_LIMIT_EXCEEDED`. -/
def RATE_LIMIT_EXCEEDED : Int := 7015

end BusinessCode

/-- `isSuccessCode` (`src/constants/business-codes.ts`):
`code >= 0 && code < 100`. -/
def isSuccessCode (code : Int) : Bool :=
  decide (0 ≤ code) && decide (code < 100)

/-- `isAuthError`: `code >= 1000 && code < 2000`. -/
def isAuthError (code : Int) : Bool :=
  decide (1000 ≤ code) && decide (code < 2000)

/-- `isUserError`: `code >= 2000 && code < 3000`. -/
def isUserError (code : Int) : Bool :=
  decide (2000 ≤ code) && decide (code < 3000)

/-- `isValidationError`: `code >= 3000 && code < 4000`. -/
def isValidationError (code : Int) : Bool :=
  decide (3000 ≤ code) && decide (code < 4000)

/-- `isResourceError`: `code >= 4000 && code < 5000`. -/
def isResourceError (code : Int) : Bool :=
  decide (4000 ≤ code) && decide (code < 5000)

/-- `isSystemError`: `code >= 5000 && code < 6000`. -/
def isSystemError (code : Int) : Bool :=
  decide (5000 ≤ code) && decide (code < 6000)

/-- `isExternalError`: `code >= 6000 && code < 7000`. -/
def isExternalError (code : Int) : Bool :=
  decide (6000 ≤ code) && decide (code < 7000)

/-- `isBusinessLogicError`: `code >= 7000 && code < 8000`. -/
def isBusinessLogicError (code : Int) : Bool :=
  decide (7000 ≤ code) && decide (code < 8000)

/-- A business code lies in one of the eight documented half-open ranges
`[0,100)`, `[1000,2000)`, …, `[7000,8000)`. -/
def inDocumentedRanges (code : Int) : Prop :=
  (0 ≤ code ∧ code < 100) ∨ (1000 ≤ code ∧ code < 2000) ∨
  (2000 ≤ code ∧ code < 3000) ∨ (3000 ≤ code ∧ code < 4000) ∨
  (4000 ≤ code ∧ code < 5000) ∨ (5000 ≤ code ∧ code < 6000) ∨
  (6000 ≤ code ∧ code < 7000) ∨ (7000 ≤ code ∧ code < 8000)

instance (code : Int) : Decidable (inDocumentedRanges code) := by
  unfold inDocumentedRanges; infer_instance

/-- Number of the eight range predicates that hold at `code`. -/
def rangePredicateCount (code : Int) : Nat :=
  (if isSuccessCode code then 1 else 0) +
  (if isAuthError code then 1 else 0) +
  (if isUserError code then 1 else 0) +
  (if isValidationError code then 1 else 0) +
  (if isResourceError code then 1 else 0) +
  (if isSystemError code then 1 else 0) +
  (if isExternalError code then 1 else 0) +
  (if isBusinessLogicError code then 1 else 0)

/-- Opaque-to-the-envelope payload of a `Record<string, unknown>`
(`details` of `ErrorDetails`, extra keys of `PaginationMeta`): an
association list whose values the core never inspects. -/
abbrev StringRecord : Type := List (String × String)

/-- `PaginationMeta` (`src/types.ts`): every declared field is optional
(`page?`, `limit?`, … `hasPreviousPage?`), and the interface carries an
index signature `[key: string]: unknown` for additional custom
metadata, modelled by `extras`. -/
structure PaginationMeta where
  page : Option Int := none
  limit : Option Int := none
  total : Option Int := none
  totalPages : Option Int := none
  hasNextPage : Option Bool := none
  hasPreviousPage : Option Bool := none
  extras : StringRecord := []
deriving DecidableEq, Repr

/-- `Omit<PaginationMeta, 'page' | 'limit' | 'total'>`, the type of
`PaginatedParams.meta` (`src/types.ts`): the caller-supplied extra
metadata may carry `totalPages`, `hasNextPage`, `hasPreviousPage` and
arbitrary additional keys, but not `page`, `limit`, `total`. -/
structure ExtraMeta where
  totalPages : Option Int := none
  hasNextPage : Option Bool := none
  hasPreviousPage : Option Bool := none
  extras : StringRecord := []
deriving DecidableEq, Repr

/-- `ErrorDetails` (`src/types.ts`): `code?`, `details?`, `stack?`. -/
structure ErrorDetails where
  code : Option Int := none
  details : Option StringRecord := none
  stack : Option String := none
deriving DecidableEq, Repr

/-- `ApiResponseParams<T>` (`src/types.ts`): `success` is required, all
other fields optional. -/
structure ApiResponseParams (T : Type) where
  success : Bool
  data : Option T := none
  message : Option String := none
  statusCode : Option Int := none
  meta : Option PaginationMeta := none
  error : Option ErrorDetails := none
deriving DecidableEq, Repr

/-- `SuccessParams<T>` (`src/types.ts`). -/
structure SuccessParams (T : Type) where
  data : Option T := none
  message : Option String := none
  statusCode : Option Int := none
  meta : Option PaginationMeta := none
deriving DecidableEq, Repr

/-- `ErrorParams` (`src/types.ts`). -/
structure ErrorParams where
  message : Option String := none
  code : Option Int := none
  details : Option StringRecord := none
  statusCode : Option Int := none
deriving DecidableEq, Repr

/-- `PaginatedParams<T>` (`src/types.ts`): `data`, `page`, `limit`,
`total` are required; `meta` is the `Omit<…>` extra metadata. -/
structure PaginatedParams (T : Type) where
  data : List T
  message : Option String := none
  statusCode : Option Int := none
  page : Int
  limit : Int
  total : Int
  meta : Option ExtraMeta := none
deriving DecidableEq, Repr

/-- The `ApiResponse<T>` instance fields
(`src/response/api-response.ts`, lines 30–47): `success` is required,
the rest are optional. -/
structure ApiResponse (T : Type) where
  success : Bool
  data : Option T := none
  message : Option String := none
  statusCode : Option Int := none
  meta : Option PaginationMeta := none
  error : Option ErrorDetails := none
deriving DecidableEq, Repr

namespace ApiResponse

/-- The public `constructor(params)` (api-response.ts lines 49–56): it
copies each of the six parameter fields verbatim into the instance. -/
def ofParams (params : ApiResponseParams T) : ApiResponse T :=
  { success := params.success
    data := params.data
    message := params.message
    statusCode := params.statusCode
    meta := params.meta
    error := params.error }

/-- The static factory `ApiResponse.success` (api-response.ts lines
73–81).  Named `mkSuccess` because the structure already has a field
projection `ApiResponse.success`. -/
def mkSuccess (params : SuccessParams T) : ApiResponse T :=
  ofParams
    { success := true
      data := params.data
      message := some (params.message.getD "Success")
      statusCode := some (params.statusCode.getD HttpStatus.OK)
      meta := params.meta }

/-- The static factory `ApiResponse.error` (api-response.ts lines
109–119).  Named `mkError` because the structure already has a field
projection `ApiResponse.error`.  The `error` object literal sets
`code` (with default `BusinessCode.INTERNAL_ERROR`) and `details`;
`stack` is not set. -/
def mkError (params : ErrorParams) : ApiResponse T :=
  ofParams
    { success := false
      message := some (params.message.getD "Error")
      statusCode := some (params.statusCode.getD HttpStatus.INTERNAL_SERVER_ERROR)
      error := some
        { code := some (params.code.getD BusinessCode.INTERNAL_ERROR)
          details := params.details } }

/-- `Math.ceil(total / limit)` on integer arguments (api-response.ts
line 139).  For `limit > 0` the JavaScript expression is exactly the
integer ceiling of the exact quotient, which equals
`(total + limit - 1).ediv limit`; `limit ≤ 0` produces non-integer or
infinite floats in JavaScript and is outside this model's domain (the
spec flags `limit = 0` as an open edge case). -/
def jsCeilDiv (total limit : Int) : Int :=
  (total + limit - 1).ediv limit

/-- `ApiResponse.paginated` (api-response.ts lines 138–156).  The meta
object literal lists the five computed fields first and then spreads
`...params.meta`, so a key present in the caller's extra metadata
overwrites the computed field of the same name; `hasNextPage` is
computed from the local `totalPages` variable, not the possibly
overridden field. -/
def paginated (params : PaginatedParams T) : ApiResponse (List T) :=
  let totalPages := jsCeilDiv params.total params.limit
  let extra := params.meta.getD {}
  ofParams
    { success := true
      data := some params.data
      message := some (params.message.getD "Success")
      statusCode := some (params.statusCode.getD HttpStatus.OK)
      meta := some
        { page := some params.page
          limit := some params.limit
          total := some params.total
          totalPages := some (extra.totalPages.getD totalPages)
          hasNextPage := some (extra.hasNextPage.getD (decide (params.page < totalPages)))
          hasPreviousPage := some (extra.hasPreviousPage.getD (decide (1 < params.page)))
          extras := extra.extras } }

/-- `ApiResponse.created` (api-response.ts lines 165–171). -/
def created (data : T) (message : Option String := none) : ApiResponse T :=
  mkSuccess
    { data := some data
      message := some (message.getD "Resource created successfully")
      statusCode := some HttpStatus.CREATED }

/-- `ApiResponse.noContent` (api-response.ts lines 179–185). -/
def noContent (message : Option String := none) : ApiResponse T :=
  ofParams
    { success := true
      message := some (message.getD "No content")
      statusCode := some HttpStatus.NO_CONTENT }

/-- `ApiResponse.badRequest` (api-response.ts lines 194–201). -/
def badRequest (message : Option String := none)
    (details : Option StringRecord := none) : ApiResponse T :=
  mkError
    { message := some (message.getD "Bad request")
      code := some BusinessCode.INVALID_INPUT
      statusCode := some HttpStatus.BAD_REQUEST
      details := details }

/-- `ApiResponse.unauthorized` (api-response.ts lines 210–216). -/
def unauthorized (message : Option String := none)
    (code : Option Int := none) : ApiResponse T :=
  mkError
    { message := some (message.getD "Unauthorized")
      code := some (code.getD BusinessCode.AUTH_FAILED)
      statusCode := some HttpStatus.UNAUTHORIZED }

/-- `ApiResponse.forbidden` (api-response.ts lines 224–230). -/
def forbidden (message : Option String := none) : ApiResponse T :=
  mkError
    { message := some (message.getD "Forbidden")
      code := some BusinessCode.PERMISSION_DENIED
      statusCode := some HttpStatus.FORBIDDEN }

/-- `ApiResponse.notFound` (api-response.ts lines 239–245). -/
def notFound (message : Option String := none)
    (code : Option Int := none) : ApiResponse T :=
  mkError
    { message := some (message.getD "Not found")
      code := some (code.getD BusinessCode.RESOURCE_NOT_FOUND)
      statusCode := some HttpStatus.NOT_FOUND }

/-- `ApiResponse.conflict` (api-response.ts lines 254–260). -/
def conflict (message : Option String := none)
    (code : Option Int := none) : ApiResponse T :=
  mkError
    { message := some (message.getD "Conflict")
      code := some (code.getD BusinessCode.RESOURCE_CONFLICT)
      statusCode := some HttpStatus.CONFLICT }

/-- `ApiResponse.validationError` (api-response.ts lines 269–276):
`details` is a required parameter. -/
def validationError (details : StringRecord)
    (message : Option String := none) : ApiResponse T :=
  mkError
    { message := some (message.getD "Validation failed")
      code := some BusinessCode.VALIDATION_ERROR
      statusCode := some HttpStatus.UNPROCESSABLE_ENTITY
      details := some details }

/-- `ApiResponse.tooManyRequests` (api-response.ts lines 284–290). -/
def tooManyRequests (message : Option String := none) : ApiResponse T :=
  mkError
    { message := some (message.getD "Too many requests")
      code := some BusinessCode.RATE_LIMIT_EXCEEDED
      statusCode := some HttpStatus.TOO_MANY_REQUESTS }

/-- `ApiResponse.internalError` (api-response.ts lines 298–304). -/
def internalError (message : Option String := none) : ApiResponse T :=
  mkError
    { message := some (message.getD "Internal server error")
      code := some BusinessCode.INTERNAL_ERROR
      statusCode := some HttpStatus.INTERNAL_SERVER_ERROR }

/-- `toJSON` (api-response.ts lines 309–321): starts from
`{ success: this.success }` and assigns each of `data`, `message`,
`statusCode`, `meta`, `error` only when the instance field is not
`undefined`.  In the `Option` representation a conditionally assigned
key is exactly the field's `Option` value (absent key ↔ `none`), so
the produced plain object copies the six fields. -/
def toJSON (r : ApiResponse T) : ApiResponseParams T :=
  { success := r.success
    data := r.data
    message := r.message
    statusCode := r.statusCode
    meta := r.meta
    error := r.error }

end ApiResponse

/-- The keys present on the plain object built by `toJSON`, in the
order the source assigns them: `success` always, then each optional
key exactly when its value is not `undefined`. -/
def jsonKeys (p : ApiResponseParams T) : List String :=
  ["success"] ++
  (if p.data.isSome then ["data"] else []) ++
  (if p.message.isSome then ["message"] else []) ++
  (if p.statusCode.isSome then ["statusCode"] else []) ++
  (if p.meta.isSome then ["meta"] else []) ++
  (if p.error.isSome then ["error"] else [])

/-- Discriminant consistency invariant of the envelope (spec §3):
`success` is true iff `error` is absent, and a failure envelope
carries no `data`. -/
def consistent (r : ApiResponse T) : Prop :=
  (r.success = true ↔ r.error = none) ∧ (r.success = false → r.data = none)

namespace I18n

/-- `Locale` (`src/i18n/types.ts`): the closed union `'en' | 'vi'`.
Declared inside the `I18n` namespace because the root name `Locale`
is taken by the ambient mathematical library. -/
inductive Locale where
  | en
  | vi
deriving DecidableEq, Repr

/-- `MessageMap` (`src/i18n/types.ts`): `Record<number, string>`,
modelled as an association list with first-match lookup. -/
abbrev MessageMap : Type := List (Int × String)

/-- Key lookup in a `MessageMap` (`map[code]` in the source):
`some` when the key is present, `none` (i.e. `undefined`) otherwise. -/
def MessageMap.find (m : MessageMap) (code : Int) : Option String :=
  List.lookup code m

/-- `DEFAULT_UNKNOWN_MESSAGE` (`src/i18n/types.ts`): a total
`Record<Locale, string>` with an entry for each of the two locales. -/
def DEFAULT_UNKNOWN_MESSAGE : Locale → String
  | .en => "Unknown error"
  | .vi => "Lỗi không xác định"

/-- `enMessages` (`src/i18n/locales/en.ts`). -/
def enMessages : MessageMap :=
  [(0, "Operation completed successfully"),
   (1, "Resource created successfully"),
   (2, "Resource updated successfully"),
   (3, "Resource deleted successfully"),
   (4, "Operation accepted for processing"),
   (5, "No changes were made"),
   (1001, "Authentication failed"),
   (1002, "Access token has expired"),
   (1003, "Access token is invalid"),
   (1004, "Access token is missing"),
   (1005, "Refresh token has expired"),
   (1006, "Refresh token is invalid"),
   (1007, "Insufficient permissions"),
   (1008, "Account is locked"),
   (1009, "Account is not verified"),
   (1010, "Session has expired"),
   (1011, "Invalid API key"),
   (1012, "Too many authentication attempts"),
   (1013, "Two-factor authentication required"),
   (1014, "Two-factor authentication failed"),
   (1015, "OAuth authentication failed"),
   (1016, "OAuth provider error"),
   (2001, "User not found"),
   (2002, "User already exists"),
   (2003, "User account is inactive"),
   (2004, "Invalid credentials"),
   (2005, "User account is suspended"),
   (2006, "User account is deleted"),
   (2007, "Email already in use"),
   (2008, "Username already in use"),
   (2009, "Phone number already in use"),
   (2010, "Invalid email format"),
   (2011, "Password is too weak"),
   (2012, "Passwords do not match"),
   (2013, "Old password is incorrect"),
   (2014, "Profile is incomplete"),
   (3001, "Validation error"),
   (3002, "Invalid input"),
   (3003, "Required field is missing"),
   (3004, "Value is out of range"),
   (3005, "Invalid format"),
   (3006, "Field is too long"),
   (3007, "Field is too short"),
   (3008, "Invalid date format"),
   (3009, "Date cannot be in the past"),
   (3010, "Date cannot be in the future"),
   (3011, "Invalid file type"),
   (3012, "File size is too large"),
   (3013, "Invalid JSON format"),
   (3014, "Invalid UUID format"),
   (3015, "Invalid phone number format"),
   (3016, "Duplicate entry"),
   (4001, "Resource not found"),
   (4002, "Resource already exists"),
   (4003, "Resource is locked"),
   (4004, "Resource has been deleted"),
   (4005, "Resource has expired"),
   (4006, "Resource limit reached"),
   (4007, "Resource is not available"),
   (4008, "Resource conflict"),
   (4009, "Version mismatch"),
   (4010, "Cannot delete resource with dependencies"),
   (5001, "Internal server error"),
   (5002, "Database error"),
   (5003, "External service error"),
   (5004, "Service temporarily unavailable"),
   (5005, "Configuration error"),
   (5006, "Cache error"),
   (5007, "File system error"),
   (5008, "Memory limit exceeded"),
   (5009, "Operation timed out"),
   (5010, "Queue error"),
   (6001, "Third-party API error"),
   (6002, "Payment gateway error"),
   (6003, "Email service error"),
   (6004, "SMS service error"),
   (6005, "Storage service error"),
   (6006, "Search service error"),
   (6007, "Notification service error"),
   (6008, "Analytics service error"),
   (7001, "Operation not allowed"),
   (7002, "Insufficient balance"),
   (7003, "Transaction failed"),
   (7004, "Order cannot be cancelled"),
   (7005, "Order cannot be modified"),
   (7006, "Item out of stock"),
   (7007, "Coupon is invalid"),
   (7008, "Coupon has expired"),
   (7009, "Minimum order not met"),
   (7010, "Maximum quantity exceeded"),
   (7011, "Subscription required"),
   (7012, "Subscription has expired"),
   (7013, "Feature not available"),
   (7014, "Quota exceeded"),
   (7015, "Rate limit exceeded")]

/-- `viMessages` (`src/i18n/locales/vi.ts`). -/
def viMessages : MessageMap :=
  [(0, "Thao tác thành công"),
   (1, "Tạo mới thành công"),
   (2, "Cập nhật thành công"),
   (3, "Xóa thành công"),
   (4, "Yêu cầu đã được tiếp nhận"),
   (5, "Không có thay đổi"),
   (1001, "Xác thực thất bại"),
   (1002, "Token đã hết hạn"),
   (1003, "Token không hợp lệ"),
   (1004, "Thiếu token xác thực"),
   (1005, "Refresh token đã hết hạn"),
   (1006, "Refresh token không hợp lệ"),
   (1007, "Không đủ quyền truy cập"),
   (1008, "Tài khoản đã bị khóa"),
   (1009, "Tài khoản chưa được xác minh"),
   (1010, "Phiên đăng nhập đã hết hạn"),
   (1011, "API key không hợp lệ"),
   (1012, "Quá nhiều lần đăng nhập thất bại"),
   (1013, "Yêu cầu xác thực hai yếu tố"),
   (1014, "Xác thực hai yếu tố thất bại"),
   (1015, "Đăng nhập OAuth thất bại"),
   (1016, "Lỗi nhà cung cấp OAuth"),
   (2001, "Không tìm thấy người dùng"),
   (2002, "Người dùng đã tồn tại"),
   (2003, "Tài khoản không hoạt động"),
   (2004, "Thông tin đăng nhập không đúng"),
   (2005, "Tài khoản đã bị tạm ngưng"),
   (2006, "Tài khoản đã bị xóa"),
   (2007, "Email đã được sử dụng"),
   (2008, "Tên đăng nhập đã được sử dụng"),
   (2009, "Số điện thoại đã được sử dụng"),
   (2010, "Email không đúng định dạng"),
   (2011, "Mật khẩu quá yếu"),
   (2012, "Mật khẩu không khớp"),
   (2013, "Mật khẩu cũ không đúng"),
   (2014, "Hồ sơ chưa hoàn thiện"),
   (3001, "Lỗi xác thực dữ liệu"),
   (3002, "Dữ liệu đầu vào không hợp lệ"),
   (3003, "Thiếu trường bắt buộc"),
   (3004, "Giá trị nằm ngoài phạm vi cho phép"),
   (3005, "Định dạng không hợp lệ"),
   (3006, "Trường quá dài"),
   (3007, "Trường quá ngắn"),
   (3008, "Định dạng ngày không hợp lệ"),
   (3009, "Ngày không thể ở quá khứ"),
   (3010, "Ngày không thể ở tương lai"),
   (3011, "Loại tệp không hợp lệ"),
   (3012, "Kích thước tệp quá lớn"),
   (3013, "Định dạng JSON không hợp lệ"),
   (3014, "Định dạng UUID không hợp lệ"),
   (3015, "Số điện thoại không hợp lệ"),
   (3016, "Dữ liệu bị trùng lặp"),
   (4001, "Không tìm thấy tài nguyên"),
   (4002, "Tài nguyên đã tồn tại"),
   (4003, "Tài nguyên đang bị khóa"),
   (4004, "Tài nguyên đã bị xóa"),
   (4005, "Tài nguyên đã hết hạn"),
   (4006, "Đã đạt giới hạn tài nguyên"),
   (4007, "Tài nguyên không khả dụng"),
   (4008, "Xung đột tài nguyên"),
   (4009, "Phiên bản không khớp"),
   (4010, "Không thể xóa tài nguyên có phụ thuộc"),
   (5001, "Lỗi máy chủ nội bộ"),
   (5002, "Lỗi cơ sở dữ liệu"),
   (5003, "Lỗi dịch vụ bên ngoài"),
   (5004, "Dịch vụ tạm thời không khả dụng"),
   (5005, "Lỗi cấu hình"),
   (5006, "Lỗi bộ nhớ đệm"),
   (5007, "Lỗi hệ thống tệp"),
   (5008, "Vượt quá giới hạn bộ nhớ"),
   (5009, "Thao tác quá thời gian"),
   (5010, "Lỗi hàng đợi"),
   (6001, "Lỗi API bên thứ ba"),
   (6002, "Lỗi cổng thanh toán"),
   (6003, "Lỗi dịch vụ email"),
   (6004, "Lỗi dịch vụ SMS"),
   (6005, "Lỗi dịch vụ lưu trữ"),
   (6006, "Lỗi dịch vụ tìm kiếm"),
   (6007, "Lỗi dịch vụ thông báo"),
   (6008, "Lỗi dịch vụ phân tích"),
   (7001, "Thao tác không được phép"),
   (7002, "Số dư không đủ"),
   (7003, "Giao dịch thất bại"),
   (7004, "Không thể hủy đơn hàng"),
   (7005, "Không thể chỉnh sửa đơn hàng"),
   (7006, "Sản phẩm hết hàng"),
   (7007, "Mã giảm giá không hợp lệ"),
   (7008, "Mã giảm giá đã hết hạn"),
   (7009, "Chưa đạt giá trị đơn hàng tối thiểu"),
   (7010, "Vượt quá số lượng tối đa"),
   (7011, "Yêu cầu đăng ký gói dịch vụ"),
   (7012, "Gói đăng ký đã hết hạn"),
   (7013, "Tính năng không khả dụng"),
   (7014, "Đã vượt quá hạn mức"),
   (7015, "Đã vượt quá giới hạn tần suất")]

/-- `builtInMessages` (`src/i18n/message-provider.ts` lines 15–18). -/
def builtInMessages : Locale → MessageMap
  | .en => enMessages
  | .vi => viMessages

/-- JavaScript truthiness test used by `getMessage`
(`if (customMessage) return customMessage`): a string hit counts only
when it is defined and non-empty (the empty string is falsy). -/
def jsHit : Option String → Option String
  | some s => if s.isEmpty then none else some s
  | none => none

/-- The mutable state of `BusinessMessageProvider`
(`src/i18n/message-provider.ts` lines 38–41): current locale, fallback
locale, and the per-locale custom override maps.  `Map.get` on a
missing locale yields `undefined`, observationally an empty map (and
`registerMessages` explicitly treats a missing map as `{}`), so
`customMessages` is modelled as a total function defaulting to `[]`. -/
structure BusinessMessageProvider where
  locale : Locale
  fallbackLocale : Locale
  customMessages : Locale → MessageMap

namespace BusinessMessageProvider

/-- `registerMessages(locale, messages)` (message-provider.ts lines
76–79): `{ ...existing, ...messages }` merges the new entries into any
existing override map for the locale; under first-match `lookup`,
prepending `messages` makes the later spread win per code. -/
def registerMessages (p : BusinessMessageProvider) (locale : Locale)
    (messages : MessageMap) : BusinessMessageProvider :=
  { p with
    customMessages := fun l =>
      if l = locale then messages ++ p.customMessages locale
      else p.customMessages l }

/-- `getMessage(code, locale?)` (message-provider.ts lines 84–114):
custom then built-in for the target locale, then (when the target is
not the fallback locale) custom then built-in for the fallback locale,
finally the unknown sentinel.  The source's final
`DEFAULT_UNKNOWN_MESSAGE[targetLocale] ?? DEFAULT_UNKNOWN_MESSAGE.en`
never takes the `??` branch because the sentinel record is total over
the closed `Locale` union. -/
def getMessage (p : BusinessMessageProvider) (code : Int)
    (locale : Option Locale := none) : String :=
  let targetLocale := locale.getD p.locale
  match jsHit ((p.customMessages targetLocale).find code) with
  | some m => m
  | none =>
    match jsHit ((builtInMessages targetLocale).find code) with
    | some m => m
    | none =>
      if targetLocale ≠ p.fallbackLocale then
        match jsHit ((p.customMessages p.fallbackLocale).find code) with
        | some m => m
        | none =>
          match jsHit ((builtInMessages p.fallbackLocale).find code) with
          | some m => m
          | none => DEFAULT_UNKNOWN_MESSAGE targetLocale
      else DEFAULT_UNKNOWN_MESSAGE targetLocale

/-- `hasMessage(code, locale?)` (message-provider.ts lines 119–125):
`customMessages.get(target)?.[code] !== undefined ||
builtInMessages[target]?.[code] !== undefined` — an existence check
(`!== undefined`), not a truthiness check. -/
def hasMessage (p : BusinessMessageProvider) (code : Int)
    (locale : Option Locale := none) : Bool :=
  let targetLocale := locale.getD p.locale
  ((p.customMessages targetLocale).find code).isSome ||
  ((builtInMessages targetLocale).find code).isSome

end BusinessMessageProvider

/-- Success of steps 1–2 of `getMessage` for a code and target locale,
phrased as the spec phrases `hasMessage`'s contract: the requested
locale's override table or built-in table yields the message (a step
succeeds exactly when its truthiness test fires). -/
def stepOneOrTwoHit (p : BusinessMessageProvider) (code : Int)
    (locale : Option Locale := none) : Bool :=
  let targetLocale := locale.getD p.locale
  (jsHit ((p.customMessages targetLocale).find code)).isSome ||
  (jsHit ((builtInMessages targetLocale).find code)).isSome

/-- The value step 1 (or step 3, at the fallback locale) of
`getMessage` observes: the truthy custom-override entry for a locale. -/
def customHit (p : BusinessMessageProvider) (l : Locale) (code : Int) : Option String :=
  jsHit ((p.customMessages l).find code)

/-- The value step 2 (or step 4, at the fallback locale) of
`getMessage` observes: the truthy built-in entry for a locale. -/
def builtInHit (l : Locale) (code : Int) : Option String :=
  jsHit ((builtInMessages l).find code)

/-- A provider whose `vi` override table carries an empty-string
message for code `9999` (legal: `MessageMap` is
`Record<number, string>` and the empty string is a string). -/
def emptyStringProbe : BusinessMessageProvider :=
  ⟨.vi, .en, fun l => if l = .vi then [((9999 : Int), "")] else []⟩

/-- A provider whose fallback locale is `vi`: resolution for `en`
consults the `vi` override table at step 3. -/
def fallbackProbe : BusinessMessageProvider :=
  ⟨.en, .vi, fun _ => []⟩

end I18n

/-- The options object of `parsePagination`
(`src/nextjs/helpers.ts`): `defaultPage?`, `defaultLimit?`,
`maxLimit?`. -/
structure PaginationParseOptions where
  defaultPage : Option Int := none
  defaultLimit : Option Int := none
  maxLimit : Option Int := none
deriving DecidableEq, Repr

/-- JavaScript `parseInt(s, 10)`: skip leading whitespace, read an
optional sign, then the longest prefix of decimal digits (trailing
garbage is ignored); yields `NaN` — modelled as `none` — when no digit
follows. -/
def jsParseInt (s : String) : Option Int :=
  let cs := s.toList.dropWhile Char.isWhitespace
  let signAndRest : Int × List Char :=
    match cs with
    | '-' :: t => (-1, t)
    | '+' :: t => (1, t)
    | t => (1, t)
  let digits := signAndRest.2.takeWhile Char.isDigit
  if digits.isEmpty then none
  else some (signAndRest.1 *
    (digits.foldl (fun a c => a * 10 + (c.toNat - 48)) 0 : Nat))

/-- JavaScript `a || b` on a nullable string `a`: `b` when `a` is
`null`/`undefined` or the empty string (both falsy), `a` otherwise. -/
def jsOrDefault (v : Option String) (dflt : String) : String :=
  match v with
  | none => dflt
  | some s => if s.isEmpty then dflt else s

/-- JavaScript `Math.max(a, x)` with `x` possibly `NaN` (`none`):
`NaN` propagates. -/
def jsMax (a : Int) (x : Option Int) : Option Int :=
  x.map (max a)

/-- JavaScript `Math.min(a, x)` with `x` possibly `NaN` (`none`):
`NaN` propagates. -/
def jsMin (a : Int) (x : Option Int) : Option Int :=
  x.map (min a)

/-- `parsePagination` (`src/nextjs/helpers.ts` lines 373–389), with the
URL already decomposed: `pageParam`/`limitParam` are
`url.searchParams.get('page')` / `…get('limit')` (`none` = absent).
Defaults are `1`, `10`, `100`; the result components are `none` when
the JavaScript computation yields `NaN`. -/
def parsePagination (pageParam limitParam : Option String)
    (options : Option PaginationParseOptions := none) :
    Option Int × Option Int :=
  let defaultPage := (options.bind (·.defaultPage)).getD 1
  let defaultLimit := (options.bind (·.defaultLimit)).getD 10
  let maxLimit := (options.bind (·.maxLimit)).getD 100
  let page := jsMax 1 (jsParseInt (jsOrDefault pageParam (toString defaultPage)))
  let limit := jsMin maxLimit
    (jsMax 1 (jsParseInt (jsOrDefault limitParam (toString defaultLimit))))
  (page, limit)



/-! ### Helper lemmas -/

/-- For a positive divisor, the source's `Math.ceil(total / limit)`
(embedded as `jsCeilDiv`) is the mathematical ceiling of the exact
quotient. -/
theorem jsCeilDiv_eq_ceil (total limit : Int) (h : 0 < limit) :
    ApiResponse.jsCeilDiv total limit = ⌈(total : ℚ) / (limit : ℚ)⌉ := by
  have hne : limit ≠ 0 := ne_of_gt h
  have hq : (0 : ℚ) < (limit : ℚ) := by exact_mod_cast h
  have hmod1 : 0 ≤ (total + limit - 1) % limit := Int.emod_nonneg _ hne
  have hmod2 : (total + limit - 1) % limit < limit := Int.emod_lt_of_pos _ h
  have hdm : limit * ((total + limit - 1) / limit) + (total + limit - 1) % limit
      = total + limit - 1 := Int.ediv_add_emod _ _
  have hdef : ApiResponse.jsCeilDiv total limit = (total + limit - 1) / limit := rfl
  rw [hdef, eq_comm, Int.ceil_eq_iff]
  constructor
  · rw [lt_div_iff₀ hq]
    have hz : ((total + limit - 1) / limit - 1) * limit < total := by nlinarith
    exact_mod_cast hz
  · rw [div_le_iff₀ hq]
    have hz : total ≤ ((total + limit - 1) / limit) * limit := by nlinarith
    exact_mod_cast hz

/-- When every value of a message map is non-empty, the truthiness
test of `getMessage` agrees with the existence test of
`hasMessage` on that map. -/
theorem I18n.jsHit_eq_find_of_no_empty (m : I18n.MessageMap)
    (h : ∀ pr ∈ m, pr.2.isEmpty = false) (code : Int) :
    I18n.jsHit (m.find code) = m.find code := by
  induction m with
  | nil => rfl
  | cons hd tl ih =>
    have hhd : hd.2.isEmpty = false := h hd (List.mem_cons_self hd tl)
    have htl : ∀ pr ∈ tl, pr.2.isEmpty = false := fun pr hpr => h pr (List.mem_cons_of_mem hd hpr)
    rcases hd with ⟨k, v⟩
    simp only [I18n.MessageMap.find, List.lookup_cons]
    rcases hbe : code == k with _ | _
    · simpa [I18n.MessageMap.find] using ih htl
    · simp [I18n.jsHit, hhd]

set_option maxRecDepth 8000 in
/-- Every entry of the built-in locale tables carries a non-empty
message text. -/
theorem I18n.builtIn_no_empty (l : I18n.Locale) :
    ∀ pr ∈ I18n.builtInMessages l, pr.2.isEmpty = false := by
  cases l <;> decide

/-! ### Claim theorems -/

/-- Claim C5: for every integer code, exactly one of the eight business
range predicates holds when the code lies in one of the eight documented
half-open ranges, and all eight are false otherwise.  Each predicate is
by definition a pure arithmetic range test (see `isSuccessCode` …
`isBusinessLogicError`), consulting no message table. -/
theorem businessCode_range_partition (c : Int) :
    (inDocumentedRanges c → rangePredicateCount c = 1) ∧
    (¬ inDocumentedRanges c → rangePredicateCount c = 0) := by
  unfold inDocumentedRanges rangePredicateCount
  simp only [isSuccessCode, isAuthError, isUserError, isValidationError,
    isResourceError, isSystemError, isExternalError, isBusinessLogicError,
    Bool.and_eq_true, decide_eq_true_eq]
  constructor <;> intro h <;> split_ifs <;> omega

/-- Witness for C5: code `1001` lies in the auth range and satisfies
exactly one predicate; code `500` lies in no documented range and
satisfies none. -/
theorem businessCode_range_partition_witness :
    rangePredicateCount 1001 = 1 ∧ rangePredicateCount 500 = 0 :=
  ⟨(businessCode_range_partition 1001).1 (by decide),
   (businessCode_range_partition 500).2 (by decide)⟩

/-- Claim C2: every envelope produced by a factory operation satisfies
the discriminant consistency invariant: `success` is true iff `error`
is absent, and a failure envelope has no `data`. -/
theorem factory_envelopes_consistent :
    (∀ (T : Type) (p : SuccessParams T), consistent (ApiResponse.mkSuccess p)) ∧
    (∀ (T : Type) (p : ErrorParams), consistent (ApiResponse.mkError (T := T) p)) ∧
    (∀ (T : Type) (p : PaginatedParams T), consistent (ApiResponse.paginated p)) ∧
    (∀ (T : Type) (d : T) (m : Option String), consistent (ApiResponse.created d m)) ∧
    (∀ (T : Type) (m : Option String), consistent (ApiResponse.noContent (T := T) m)) ∧
    (∀ (T : Type) (m : Option String) (d : Option StringRecord),
      consistent (ApiResponse.badRequest (T := T) m d)) ∧
    (∀ (T : Type) (m : Option String) (c : Option Int),
      consistent (ApiResponse.unauthorized (T := T) m c)) ∧
    (∀ (T : Type) (m : Option String), consistent (ApiResponse.forbidden (T := T) m)) ∧
    (∀ (T : Type) (m : Option String) (c : Option Int),
      consistent (ApiResponse.notFound (T := T) m c)) ∧
    (∀ (T : Type) (m : Option String) (c : Option Int),
      consistent (ApiResponse.conflict (T := T) m c)) ∧
    (∀ (T : Type) (d : StringRecord) (m : Option String),
      consistent (ApiResponse.validationError (T := T) d m)) ∧
    (∀ (T : Type) (m : Option String), consistent (ApiResponse.tooManyRequests (T := T) m)) ∧
    (∀ (T : Type) (m : Option String), consistent (ApiResponse.internalError (T := T) m)) := by
  refine ⟨?_, ?_, ?_, ?_, ?_, ?_, ?_, ?_, ?_, ?_, ?_, ?_, ?_⟩ <;> intros <;>
    simp [consistent, ApiResponse.mkSuccess, ApiResponse.mkError, ApiResponse.paginated,
      ApiResponse.created, ApiResponse.noContent, ApiResponse.badRequest,
      ApiResponse.unauthorized, ApiResponse.forbidden, ApiResponse.notFound,
      ApiResponse.conflict, ApiResponse.validationError, ApiResponse.tooManyRequests,
      ApiResponse.internalError, ApiResponse.ofParams]

/-- Witness for C2: the default success envelope has no error object,
and the default error envelope has no data. -/
theorem factory_envelopes_consistent_witness :
    (ApiResponse.mkSuccess (T := Nat) {}).error = none ∧
    (ApiResponse.mkError (T := Nat) {}).data = none :=
  ⟨(factory_envelopes_consistent.1 Nat {}).1.mp rfl,
   (factory_envelopes_consistent.2.1 Nat {}).2 rfl⟩

/-- Claim C10: the public constructor copies its six parameter fields
verbatim with no validation, so a parameter combination such as
`success = true` together with a present `error` object constructs an
envelope that violates the consistency invariant — the invariant is
guaranteed only by the factory methods. -/
theorem constructor_copies_params_verbatim :
    (∀ (T : Type) (p : ApiResponseParams T),
      (ApiResponse.ofParams p).success = p.success ∧
      (ApiResponse.ofParams p).data = p.data ∧
      (ApiResponse.ofParams p).message = p.message ∧
      (ApiResponse.ofParams p).statusCode = p.statusCode ∧
      (ApiResponse.ofParams p).meta = p.meta ∧
      (ApiResponse.ofParams p).error = p.error) ∧
    ¬ consistent (ApiResponse.ofParams
      ({ success := true, error := some {} } : ApiResponseParams Unit)) := by
  constructor
  · exact fun T p => ⟨rfl, rfl, rfl, rfl, rfl, rfl⟩
  · intro h
    exact Option.noConfusion (h.1.mp rfl)

/-- Witness for C10: a concrete parameter record is copied field by
field. -/
theorem constructor_copies_params_verbatim_witness :
    (ApiResponse.ofParams ({ success := false, data := some 5 } : ApiResponseParams Nat)).data =
      some 5 :=
  (constructor_copies_params_verbatim.1 Nat { success := false, data := some 5 }).2.1

/-- Claim C8: `toJSON` emits the `success` key and emits each of the
five optional keys exactly when the corresponding field is present
(never a present-but-empty placeholder); re-serializing the plain
object through the constructor reproduces the same plain object, and
`toJSON (success())` carries only `success`, `message`, `statusCode`. -/
theorem toJSON_omits_absent_fields :
    (∀ (T : Type) (r : ApiResponse T),
      "success" ∈ jsonKeys (ApiResponse.toJSON r) ∧
      ("data" ∈ jsonKeys (ApiResponse.toJSON r) ↔ r.data ≠ none) ∧
      ("message" ∈ jsonKeys (ApiResponse.toJSON r) ↔ r.message ≠ none) ∧
      ("statusCode" ∈ jsonKeys (ApiResponse.toJSON r) ↔ r.statusCode ≠ none) ∧
      ("meta" ∈ jsonKeys (ApiResponse.toJSON r) ↔ r.meta ≠ none) ∧
      ("error" ∈ jsonKeys (ApiResponse.toJSON r) ↔ r.error ≠ none) ∧
      ApiResponse.toJSON (ApiResponse.ofParams (ApiResponse.toJSON r)) = ApiResponse.toJSON r) ∧
    jsonKeys (ApiResponse.toJSON (ApiResponse.mkSuccess (T := Unit) {})) =
      ["success", "message", "statusCode"] := by
  constructor
  · rintro T ⟨s, d, m, sc, mt, e⟩
    refine ⟨?_, ?_, ?_, ?_, ?_, ?_, rfl⟩ <;>
      cases d <;> cases m <;> cases sc <;> cases mt <;> cases e <;>
        simp [jsonKeys, ApiResponse.toJSON]
  · rfl

/-- Witness for C8: on the default success envelope, the `message` key
is emitted and the claim's omission clauses apply at a concrete
envelope. -/
theorem toJSON_omits_absent_fields_witness :
    "message" ∈ jsonKeys (ApiResponse.toJSON (ApiResponse.mkSuccess (T := Unit) {})) :=
  (toJSON_omits_absent_fields.1 Unit (ApiResponse.mkSuccess {})).2.2.1.mpr (by
    simp [ApiResponse.mkSuccess, ApiResponse.ofParams])

/-- Claim C3: for `page ≥ 1`, `limit ≥ 1`, `total ≥ 0`, the meta of
`paginated` (called without extra metadata, as in the claim's call
shape `paginated(data, page, limit, total)`) carries
`totalPages = ceil(total / limit)`, `hasNextPage = page < totalPages`,
`hasPreviousPage = page > 1`; the derived fields depend only on
`(page, limit, total)`. -/
theorem paginated_meta_arithmetic (T : Type) (data : List T)
    (message : Option String) (statusCode : Option Int)
    (page limit total : Int)
    (hp : 1 ≤ page) (hl : 1 ≤ limit) (ht : 0 ≤ total) :
    (ApiResponse.paginated
        { data := data, message := message, statusCode := statusCode,
          page := page, limit := limit, total := total }).meta =
      some { page := some page, limit := some limit, total := some total,
             totalPages := some ⌈(total : ℚ) / (limit : ℚ)⌉,
             hasNextPage := some (decide (page < ⌈(total : ℚ) / (limit : ℚ)⌉)),
             hasPreviousPage := some (decide (1 < page)),
             extras := [] } ∧
    (∀ (T₂ : Type) (data₂ : List T₂) (message₂ : Option String) (statusCode₂ : Option Int),
      (ApiResponse.paginated
          { data := data₂, message := message₂, statusCode := statusCode₂,
            page := page, limit := limit, total := total }).meta =
        (ApiResponse.paginated
          { data := data, message := message, statusCode := statusCode,
            page := page, limit := limit, total := total }).meta) := by
  have hkey : ApiResponse.jsCeilDiv total limit = ⌈(total : ℚ) / (limit : ℚ)⌉ :=
    jsCeilDiv_eq_ceil total limit hl
  constructor
  · have h1 : (ApiResponse.paginated
        { data := data, message := message, statusCode := statusCode,
          page := page, limit := limit, total := total }).meta =
      some { page := some page, limit := some limit, total := some total,
             totalPages := some (ApiResponse.jsCeilDiv total limit),
             hasNextPage := some (decide (page < ApiResponse.jsCeilDiv total limit)),
             hasPreviousPage := some (decide (1 < page)),
             extras := [] } := rfl
    rw [h1, hkey]
  · intro T₂ data₂ message₂ statusCode₂
    rfl

/-- Witness for C3: `paginated(data, page=1, limit=10, total=25)` gives
`totalPages = 3`, `hasNextPage = true`, `hasPreviousPage = false`. -/
theorem paginated_meta_arithmetic_witness :
    (ApiResponse.paginated
        { data := [(0 : Int)], page := 1, limit := 10, total := 25 }).meta =
      some { page := some 1, limit := some 10, total := some 25,
             totalPages := some 3, hasNextPage := some true,
             hasPreviousPage := some false, extras := [] } := by
  have hc : (⌈((25 : Int) : ℚ) / ((10 : Int) : ℚ)⌉ : Int) = 3 := by
    rw [← jsCeilDiv_eq_ceil 25 10 (by norm_num)]; decide
  have h := (paginated_meta_arithmetic Int [0] none none 1 10 25
    (by norm_num) (by norm_num) (by norm_num)).1
  rw [h, hc]
  rfl

/-- Counterexample for C1: calling `paginated` with extra metadata
`{ totalPages: 999 }` at `(page, limit, total) = (1, 10, 25)` produces
a meta whose `totalPages` is the caller-supplied `999`, not the
computed `ceil(25/10) = 3` — the spread `...params.meta` comes after
the computed fields, so same-named caller keys win. -/
theorem paginated_extraMeta_counterexample :
    ((ApiResponse.paginated
        { data := ([] : List Int), page := 1, limit := 10, total := 25,
          meta := some { totalPages := some 999 } }).meta.map
      PaginationMeta.totalPages) = some (some 999) ∧
    ¬ (((ApiResponse.paginated
        { data := ([] : List Int), page := 1, limit := 10, total := 25,
          meta := some { totalPages := some 999 } }).meta.map
      PaginationMeta.totalPages) = some (some 3)) := by
  constructor
  · rfl
  · decide

/-- Amended C1: in `paginated`'s meta, the caller-supplied extra
metadata takes precedence over the computed fields of the same name
(`totalPages`, `hasNextPage`, `hasPreviousPage`): the computed value is
used only when the extra metadata omits that key.  The `page`, `limit`,
`total` fields always come from the arguments (the extra-metadata type
omits those keys), and `hasNextPage` is computed against the computed
`totalPages`, not a caller override. -/
theorem paginated_extraMeta_precedence (T : Type) (params : PaginatedParams T)
    (e : ExtraMeta) (h : params.meta = some e) :
    ((ApiResponse.paginated params).meta.map PaginationMeta.totalPages) =
      some (some (e.totalPages.getD
        (ApiResponse.jsCeilDiv params.total params.limit))) ∧
    ((ApiResponse.paginated params).meta.map PaginationMeta.hasNextPage) =
      some (some (e.hasNextPage.getD
        (decide (params.page < ApiResponse.jsCeilDiv params.total params.limit)))) ∧
    ((ApiResponse.paginated params).meta.map PaginationMeta.hasPreviousPage) =
      some (some (e.hasPreviousPage.getD (decide (1 < params.page)))) ∧
    ((ApiResponse.paginated params).meta.map PaginationMeta.page) =
      some (some params.page) ∧
    ((ApiResponse.paginated params).meta.map PaginationMeta.limit) =
      some (some params.limit) ∧
    ((ApiResponse.paginated params).meta.map PaginationMeta.total) =
      some (some params.total) := by
  simp [ApiResponse.paginated, ApiResponse.ofParams, h]

/-- Witness for amended C1: at `(1, 10, 25)` with extra metadata
`{ totalPages: 999 }`, the envelope's `totalPages` is `999`. -/
theorem paginated_extraMeta_precedence_witness :
    ((ApiResponse.paginated
        { data := ([] : List Int), page := 1, limit := 10, total := 25,
          meta := some { totalPages := some 999 } }).meta.map
      PaginationMeta.totalPages) = some (some 999) := by
  have h := (paginated_extraMeta_precedence Int
    { data := ([] : List Int), page := 1, limit := 10, total := 25,
      meta := some { totalPages := some 999 } }
    { totalPages := some 999 } rfl).1
  simpa using h

/-- Claim C4: `getMessage` consults, in order and short-circuiting on
the first (truthy) hit, the requested locale's override table, its
built-in table, then — only when the fallback locale differs from the
requested locale — the fallback locale's override and built-in tables,
and finally returns the requested locale's unknown sentinel.  The
source's further fall-back to the base-locale (`en`) sentinel
(`DEFAULT_UNKNOWN_MESSAGE[target] ?? DEFAULT_UNKNOWN_MESSAGE.en`) is
unreachable because the sentinel record is total over the closed
`Locale` union, so every requested locale has its own sentinel. -/
theorem getMessage_resolution_order (p : I18n.BusinessMessageProvider)
    (code : Int) (locale : Option I18n.Locale) :
    (∀ m, I18n.customHit p (locale.getD p.locale) code = some m →
      p.getMessage code locale = m) ∧
    (I18n.customHit p (locale.getD p.locale) code = none →
      ∀ m, I18n.builtInHit (locale.getD p.locale) code = some m →
        p.getMessage code locale = m) ∧
    (locale.getD p.locale ≠ p.fallbackLocale →
      I18n.customHit p (locale.getD p.locale) code = none →
      I18n.builtInHit (locale.getD p.locale) code = none →
      ∀ m, I18n.customHit p p.fallbackLocale code = some m →
        p.getMessage code locale = m) ∧
    (locale.getD p.locale ≠ p.fallbackLocale →
      I18n.customHit p (locale.getD p.locale) code = none →
      I18n.builtInHit (locale.getD p.locale) code = none →
      I18n.customHit p p.fallbackLocale code = none →
      ∀ m, I18n.builtInHit p.fallbackLocale code = some m →
        p.getMessage code locale = m) ∧
    (locale.getD p.locale ≠ p.fallbackLocale →
      I18n.customHit p (locale.getD p.locale) code = none →
      I18n.builtInHit (locale.getD p.locale) code = none →
      I18n.customHit p p.fallbackLocale code = none →
      I18n.builtInHit p.fallbackLocale code = none →
      p.getMessage code locale =
        I18n.DEFAULT_UNKNOWN_MESSAGE (locale.getD p.locale)) ∧
    (locale.getD p.locale = p.fallbackLocale →
      I18n.customHit p (locale.getD p.locale) code = none →
      I18n.builtInHit (locale.getD p.locale) code = none →
      p.getMessage code locale =
        I18n.DEFAULT_UNKNOWN_MESSAGE (locale.getD p.locale)) := by
  refine ⟨?_, ?_, ?_, ?_, ?_, ?_⟩
  · intro m hm
    simp only [I18n.customHit] at hm
    simp [I18n.BusinessMessageProvider.getMessage, hm]
  · intro h1 m hm
    simp only [I18n.customHit] at h1
    simp only [I18n.builtInHit] at hm
    simp [I18n.BusinessMessageProvider.getMessage, h1, hm]
  · intro hne h1 h2 m hm
    simp only [I18n.customHit] at h1 hm
    simp only [I18n.builtInHit] at h2
    simp [I18n.BusinessMessageProvider.getMessage, h1, h2, hm, hne]
  · intro hne h1 h2 h3 m hm
    simp only [I18n.customHit] at h1 h3
    simp only [I18n.builtInHit] at h2 hm
    simp [I18n.BusinessMessageProvider.getMessage, h1, h2, h3, hm, hne]
  · intro hne h1 h2 h3 h4
    simp only [I18n.customHit] at h1 h3
    simp only [I18n.builtInHit] at h2 h4
    simp [I18n.BusinessMessageProvider.getMessage, h1, h2, h3, h4, hne]
  · intro heq h1 h2
    simp only [I18n.customHit] at h1
    simp only [I18n.builtInHit] at h2
    rw [heq] at h1 h2
    simp [I18n.BusinessMessageProvider.getMessage, heq, h1, h2]

/-- Witness for C4: a resolver with default locale `vi` and fallback
`en`, with no override for `2001`, returns the `vi` built-in text for
`2001` via step 2. -/
theorem getMessage_resolution_order_witness :
    I18n.BusinessMessageProvider.getMessage ⟨.vi, .en, fun _ => []⟩ 2001 none =
      "Không tìm thấy người dùng" := by
  have h := (getMessage_resolution_order ⟨.vi, .en, fun _ => []⟩ 2001 none).2.1
  exact h rfl _ (by decide)

/-- Counterexample for C7: with an empty-string override registered for
code `9999` in `vi` (the code has no built-in entry), `hasMessage` —
an existence check using `!== undefined` — returns `true`, while
steps 1–2 of `getMessage` — truthiness checks — both fail, so the
claimed equivalence is false. -/
theorem hasMessage_emptyString_counterexample :
    I18n.BusinessMessageProvider.hasMessage I18n.emptyStringProbe 9999 none = true ∧
    I18n.stepOneOrTwoHit I18n.emptyStringProbe 9999 none = false ∧
    ¬ (I18n.BusinessMessageProvider.hasMessage I18n.emptyStringProbe 9999 none = true ↔
        I18n.stepOneOrTwoHit I18n.emptyStringProbe 9999 none = true) := by
  refine ⟨rfl, by decide, ?_⟩
  intro hiff
  exact absurd (hiff.mp rfl) (by decide)

/-- Amended C7: `hasMessage(code, locale)` is an existence check on the
requested locale's override and built-in tables only — it never
consults the fallback locale — and it coincides with the success of
steps 1–2 of `getMessage` whenever the requested locale's override
table contains no empty-string message (built-in tables never do); an
empty-string override makes `hasMessage` true while both steps fail. -/
theorem hasMessage_existence_check :
    (∀ (p : I18n.BusinessMessageProvider) (code : Int) (locale : Option I18n.Locale),
      (∀ pr ∈ p.customMessages (locale.getD p.locale), pr.2.isEmpty = false) →
      p.hasMessage code locale = I18n.stepOneOrTwoHit p code locale) ∧
    (∀ (p : I18n.BusinessMessageProvider) (fb : I18n.Locale) (code : Int)
        (locale : Option I18n.Locale),
      I18n.BusinessMessageProvider.hasMessage { p with fallbackLocale := fb } code locale =
        p.hasMessage code locale) := by
  constructor
  · intro p code locale h
    have hc := I18n.jsHit_eq_find_of_no_empty _ h code
    have hb := I18n.jsHit_eq_find_of_no_empty _
      (I18n.builtIn_no_empty (locale.getD p.locale)) code
    simp [I18n.BusinessMessageProvider.hasMessage, I18n.stepOneOrTwoHit, hc, hb]
  · intro p fb code locale
    rfl

/-- Witness for amended C7: on a provider with no overrides, the
existence check agrees with the success of steps 1–2 at code `2001`. -/
theorem hasMessage_existence_check_witness :
    I18n.BusinessMessageProvider.hasMessage ⟨.vi, .en, fun _ => []⟩ 2001 none =
      I18n.stepOneOrTwoHit ⟨.vi, .en, fun _ => []⟩ 2001 none :=
  hasMessage_existence_check.1 ⟨.vi, .en, fun _ => []⟩ 2001 none (by simp)

/-- Counterexample for C9: registering messages for a locale that is
another locale's fallback does change resolution for that other
locale: with fallback `vi` and no entries anywhere for `9999`,
resolving `9999` in `en` yields the `en` sentinel before registration
and the newly registered `vi` override after it. -/
theorem registerMessages_fallback_counterexample :
    I18n.BusinessMessageProvider.getMessage I18n.fallbackProbe 9999 (some .en) =
      "Unknown error" ∧
    I18n.BusinessMessageProvider.getMessage
        (I18n.BusinessMessageProvider.registerMessages I18n.fallbackProbe .vi [(9999, "X")])
        9999 (some .en) = "X" ∧
    ("Unknown error" : String) ≠ "X" := by
  refine ⟨rfl, rfl, by decide⟩

/-- Amended C9: `registerMessages(locale, map)` merges the new entries
into the existing override map for that locale with last write winning
per code and never replaces the whole table; it leaves the override
maps of all other locales untouched, and leaves resolution in every
other locale unchanged provided the registered locale is not the
provider's fallback locale (registration into the fallback locale can
change other locales' resolution through steps 3–4).  In particular,
with fallback `en`, registering `{2001: "X"}` for `vi` makes `vi`
resolve `2001` to `"X"` while `en` resolution of `2001` is
unaffected. -/
theorem registerMessages_merge_and_frame :
    (∀ (p : I18n.BusinessMessageProvider) (L : I18n.Locale)
        (msgs : I18n.MessageMap) (code : Int),
      ((p.registerMessages L msgs).customMessages L).find code =
        ((msgs.find code).or ((p.customMessages L).find code))) ∧
    (∀ (p : I18n.BusinessMessageProvider) (L : I18n.Locale)
        (msgs : I18n.MessageMap) (M : I18n.Locale), M ≠ L →
      (p.registerMessages L msgs).customMessages M = p.customMessages M) ∧
    (∀ (p : I18n.BusinessMessageProvider) (L : I18n.Locale)
        (msgs : I18n.MessageMap) (M : I18n.Locale) (code : Int),
      M ≠ L → p.fallbackLocale ≠ L →
      (p.registerMessages L msgs).getMessage code (some M) =
        p.getMessage code (some M)) ∧
    ((I18n.BusinessMessageProvider.registerMessages ⟨.vi, .en, fun _ => []⟩ .vi
        [(2001, "X")]).getMessage 2001 (some .vi) = "X" ∧
      (I18n.BusinessMessageProvider.registerMessages ⟨.vi, .en, fun _ => []⟩ .vi
        [(2001, "X")]).getMessage 2001 (some .en) =
        I18n.BusinessMessageProvider.getMessage ⟨.vi, .en, fun _ => []⟩ 2001 (some .en)) := by
  refine ⟨?_, ?_, ?_, rfl, rfl⟩
  · intro p L msgs code
    simp [I18n.BusinessMessageProvider.registerMessages, I18n.MessageMap.find,
      List.lookup_append]
  · intro p L msgs M hM
    simp [I18n.BusinessMessageProvider.registerMessages, hM]
  · intro p L msgs M code hM hfb
    simp [I18n.BusinessMessageProvider.getMessage,
      I18n.BusinessMessageProvider.registerMessages, hM, hfb]

/-- Witness for amended C9: registering `{2001: "X"}` for `vi` on a
fallback-`en` provider leaves `en` resolution of `2001` unchanged. -/
theorem registerMessages_merge_and_frame_witness :
    (I18n.BusinessMessageProvider.registerMessages ⟨.vi, .en, fun _ => []⟩ .vi
        [(2001, "X")]).getMessage 2001 (some .en) =
      I18n.BusinessMessageProvider.getMessage ⟨.vi, .en, fun _ => []⟩ 2001 (some .en) :=
  registerMessages_merge_and_frame.2.2.1 ⟨.vi, .en, fun _ => []⟩ .vi [(2001, "X")] .en 2001
    (by decide) (by decide)

/-- Counterexample for C6: a non-numeric `page` query value is not
silently corrected — `parseInt('abc', 10)` is `NaN` and
`Math.max(1, NaN)` is `NaN`, so `parsePagination` returns a `page`
that is not an integer ≥ 1 (the claimed bound fails). -/
theorem parsePagination_nonNumeric_counterexample :
    parsePagination (some "abc") (some "10") none = (none, some 10) ∧
    ¬ (∃ p : Int, (parsePagination (some "abc") (some "10") none).1 = some p ∧ 1 ≤ p) := by
  constructor
  · rfl
  · rintro ⟨p, hp, _⟩
    rw [show (parsePagination (some "abc") (some "10") none).1 = none from rfl] at hp
    exact Option.noConfusion hp

/-- Amended C6: whenever the effective `page` and `limit` strings
(the query value, or the stringified default when the value is absent
or empty) parse to integers — in particular for absent parameters with
integer defaults and for numeric parameter values — and the effective
`maxLimit` is at least 1, `parsePagination` returns `page ≥ 1` and
`1 ≤ limit ≤ maxLimit`, silently clamping out-of-range numeric values;
non-numeric values instead propagate `NaN`.  In particular
`page=-5&limit=10` parses to `{page: 1, limit: 10}` and
`page=1&limit=500` with the default `maxLimit` parses to
`{page: 1, limit: 100}`. -/
theorem parsePagination_clamped_bounds :
    (∀ (pageParam limitParam : Option String)
        (options : Option PaginationParseOptions) (np nl : Int),
      jsParseInt (jsOrDefault pageParam
        (toString ((options.bind (·.defaultPage)).getD 1))) = some np →
      jsParseInt (jsOrDefault limitParam
        (toString ((options.bind (·.defaultLimit)).getD 10))) = some nl →
      1 ≤ (options.bind (·.maxLimit)).getD 100 →
      ∃ p l : Int,
        parsePagination pageParam limitParam options = (some p, some l) ∧
        1 ≤ p ∧ 1 ≤ l ∧ l ≤ (options.bind (·.maxLimit)).getD 100) ∧
    parsePagination (some "-5") (some "10") none = (some 1, some 10) ∧
    parsePagination (some "1") (some "500") none = (some 1, some 100) := by
  refine ⟨?_, rfl, rfl⟩
  intro pageParam limitParam options np nl hp hl hm
  refine ⟨max 1 np, min ((options.bind (·.maxLimit)).getD 100) (max 1 nl), ?_, ?_, ?_, ?_⟩
  · simp [parsePagination, jsMax, jsMin, hp, hl]
  · exact le_max_left 1 np
  · exact le_min hm (le_max_left 1 nl)
  · exact min_le_left _ _

/-- Witness for amended C6: at `page=-5&limit=10` with default options
the clamped bounds hold. -/
theorem parsePagination_clamped_bounds_witness :
    ∃ p l : Int,
      parsePagination (some "-5") (some "10") none = (some p, some l) ∧
      1 ≤ p ∧ 1 ≤ l ∧ l ≤ 100 := by
  have h := parsePagination_clamped_bounds.1 (some "-5") (some "10") none (-5) 10
    (by rfl) (by rfl) (by norm_num)
  simpa using h
